import Mathlib

/-!
Verification of the core of the Nexus media-asset application (`src/main.py`):
the time codec (`format_time` / `parse_time`), the `ProTrimSlider` pixel/value
mapping and drag state machine, and the `MainWindow` trim-export, thumbnail and
cache-list operations.

Modelling conventions:
* Python strings are modelled as `String` / `List Char` (ASCII view of `\d`).
* Python integers are `ℤ` / `ℕ`.
* The Python float arithmetic in `ProTrimSlider` (divisions by the track width,
  the `0.25` fine-tune factor) is modelled by exact rationals `ℚ`; all the
  concrete constants involved (`0.25`, small integer ratios) are exact in
  binary floating point, so the rational model agrees with the float code on
  the inputs the theorems below evaluate.
* Python `int(x)` on a float is truncation toward zero, modelled by `truncQ`.
* External collaborators (the ffmpeg process, the Qt media player and the
  filesystem) are modelled by explicit inputs: a `ProcResult` for a process
  run, a `Player` record whose `duration` is `0` while no media is loaded
  (the documented `QMediaPlayer.duration()` behaviour after the source is
  cleared; the real duration arrives only with a later `durationChanged`
  event), and a list of existing paths for the filesystem.
-/

namespace Nexus

/-! ## Time codec (`MainWindow.format_time` / `MainWindow.parse_time`) -/

/-- Numeric value of a decimal digit character (what Python's `int` yields on
a single ASCII digit). -/
def dv (c : Char) : ℕ := c.toNat - '0'.toNat

/-- Decimal digit characters of a natural number, as printed by Python
(`repr` of a nonnegative int). -/
def digitsOf (n : ℕ) : List Char := (Nat.repr n).data

/-- Python `f"{n:0wd}"`: decimal digits of `n`, zero-padded on the left to
width `w` (numbers with `w` or more digits are printed in full). -/
def padZero (w : ℕ) (n : ℕ) : List Char :=
  List.replicate (w - (digitsOf n).length) '0' ++ digitsOf n

/-- `MainWindow.format_time` (src/main.py:760-764): clamp negative input to 0,
split into minutes / seconds / milliseconds and print `MM:SS.mmm` with the
fields zero-padded to 2, 2 and 3 digits. -/
def format_time (ms : ℤ) : List Char :=
  let ms0 : ℕ := ms.toNat
  let s : ℕ := ms0 / 1000
  let msr : ℕ := ms0 % 1000
  let m : ℕ := s / 60
  let s2 : ℕ := s % 60
  padZero 2 m ++ ':' :: (padZero 2 s2 ++ '.' :: padZero 3 msr)

/-- Tail of the regex `(\d{1,2}):(\d{2})\.(\d{3})` after the minutes have been
consumed: `:` then two digits, `.`, three digits, then an arbitrary remainder
(`re.match` anchors only at the start of the string). `m` is the already
parsed minutes value. -/
def parseRest (m : ℕ) (l : List Char) : Option ℕ :=
  match l with
  | c0 :: c1 :: c2 :: c3 :: c4 :: c5 :: c6 :: _ =>
    if c0 = ':' ∧ c1.isDigit = true ∧ c2.isDigit = true ∧ c3 = '.' ∧
        c4.isDigit = true ∧ c5.isDigit = true ∧ c6.isDigit = true then
      some ((m * 60 + (10 * dv c1 + dv c2)) * 1000 +
        (100 * dv c4 + 10 * dv c5 + dv c6))
    else none
  | _ => none

/-- `MainWindow.parse_time` (src/main.py:766-771):
`re.match(r'(\d{1,2}):(\d{2})\.(\d{3})', s)` with the greedy `\d{1,2}` and
regex backtracking made explicit, then `(m * 60 + s) * 1000 + ms`.
`re.match` only anchors at the start, so trailing characters are ignored. -/
def parse_time (l : List Char) : Option ℕ :=
  match l with
  | [] => none
  | c1 :: rest =>
    if c1.isDigit then
      match rest with
      | [] => none
      | c2 :: rest2 =>
        if c2.isDigit then
          match parseRest (10 * dv c1 + dv c2) rest2 with
          | some v => some v
          | none => parseRest (dv c1) (c2 :: rest2)
        else parseRest (dv c1) (c2 :: rest2)
    else none

/-- Modelled from the spec: the claim's acceptance condition, a string that
matches the pattern `\d{1,2}:\d{2}\.\d{3}` exactly and entirely (no trailing
characters). Used only to compare the spec's wording with `parse_time`. -/
def fullPatternMatch (l : List Char) : Bool :=
  match l with
  | [m1, c, s1, s2, d, x1, x2, x3] =>
    m1.isDigit && (c == ':') && s1.isDigit && s2.isDigit && (d == '.') &&
      x1.isDigit && x2.isDigit && x3.isDigit
  | [m1, m2, c, s1, s2, d, x1, x2, x3] =>
    m1.isDigit && m2.isDigit && (c == ':') && s1.isDigit && s2.isDigit &&
      (d == '.') && x1.isDigit && x2.isDigit && x3.isDigit
  | _ => false

/-! ## `ProTrimSlider` -/

/-- Python `int(x)` applied to a float: truncation toward zero. -/
def truncQ (q : ℚ) : ℤ := if 0 ≤ q then ⌊q⌋ else ⌈q⌉

/-- The slider's `self._dragging` values `'position'`, `'start'`, `'end'`. -/
inductive Drag
  | position
  | start
  | end'
  deriving DecidableEq

/-- State of a `ProTrimSlider` (src/main.py:104-126).  `width` is the widget
width in pixels supplied by the host; `handle_width = 16` and
`snap_threshold_px = 10` in the constructor, kept symbolic here. -/
structure Slider where
  min_val : ℤ
  max_val : ℤ
  position : ℤ
  start_marker : ℤ
  end_marker : ℤ
  dragging : Option Drag
  handle_width : ℕ
  snap_threshold_px : ℕ
  width : ℕ
  deriving DecidableEq

/-- `ProTrimSlider._value_to_pos` (src/main.py:135-139). -/
def value_to_pos (s : Slider) (value : ℤ) : ℤ :=
  let track_width : ℤ := (s.width : ℤ) - (s.handle_width : ℤ)
  let clamped_value : ℤ := max s.min_val (min value s.max_val)
  if s.max_val - s.min_val = 0 then ((s.handle_width / 2 : ℕ) : ℤ)
  else
    truncQ (((clamped_value : ℚ) - (s.min_val : ℚ)) /
        ((s.max_val : ℚ) - (s.min_val : ℚ)) * (track_width : ℚ)) +
      ((s.handle_width / 2 : ℕ) : ℤ)

/-- `ProTrimSlider._pos_to_value` (src/main.py:141-145).  `pos` is the float
x coordinate of the pointer. -/
def pos_to_value (s : Slider) (pos : ℚ) : ℤ :=
  let track_width : ℤ := (s.width : ℤ) - (s.handle_width : ℤ)
  if track_width ≤ 0 then s.min_val
  else
    let val : ℚ := (s.min_val : ℚ) +
      (pos - ((s.handle_width / 2 : ℕ) : ℤ)) / (track_width : ℚ) *
        ((s.max_val : ℚ) - (s.min_val : ℚ))
    max s.min_val (min s.max_val (truncQ val))

/-- `ProTrimSlider.setPosition` (src/main.py:151-152). -/
def setPosition (s : Slider) (v : ℤ) : Slider :=
  if s.position ≠ v then { s with position := v } else s

/-- `ProTrimSlider.setStartMarker` (src/main.py:154-155). -/
def setStartMarker (s : Slider) (v : ℤ) : Slider :=
  if s.start_marker ≠ v then { s with start_marker := v } else s

/-- `ProTrimSlider.setEndMarker` (src/main.py:157-158). -/
def setEndMarker (s : Slider) (v : ℤ) : Slider :=
  if s.end_marker ≠ v then { s with end_marker := v } else s

/-- `ProTrimSlider.setRange` (src/main.py:147-149). -/
def setRange (s : Slider) (mn mx : ℤ) : Slider :=
  { s with min_val := mn, max_val := mx }

/-- `ProTrimSlider.mouseMoveEvent` (src/main.py:236-254), with the signal
connections of `MainWindow.setup_ui` folded in: `startMarkerChanged` is
connected to `set_start_time_from_slider`, which unconditionally stores the
emitted value and writes it back via `setStartMarker` (src/main.py:795-805),
and symmetrically for `endMarkerChanged`; `positionChanged` only seeks the
player and leaves the marker state unchanged.  `fineTune` is whether Shift is
held (`fine_tune_factor = 0.25` instead of `1.0`); `ex` is the float pointer
x coordinate. -/
def mouseMoveEvent (s : Slider) (fineTune : Bool) (ex : ℚ) : Slider :=
  match s.dragging with
  | none => s
  | some Drag.position => s
  | some Drag.start =>
    let current_val : ℤ := pos_to_value s ex
    let fine_tune_factor : ℚ := if fineTune then 1/4 else 1
    let new_val : ℚ := (s.start_marker : ℚ) +
      ((current_val : ℚ) - (s.start_marker : ℚ)) * fine_tune_factor
    if new_val < (s.end_marker : ℚ) then setStartMarker s (truncQ new_val) else s
  | some Drag.end' =>
    let current_val : ℤ := pos_to_value s ex
    let fine_tune_factor : ℚ := if fineTune then 1/4 else 1
    let new_val : ℚ := (s.end_marker : ℚ) +
      ((current_val : ℚ) - (s.end_marker : ℚ)) * fine_tune_factor
    if new_val > (s.start_marker : ℚ) then setEndMarker s (truncQ new_val) else s

/-- `ProTrimSlider.mousePressEvent` (src/main.py:222-234): pick the handle to
drag by testing start, end and playhead in that order against
`handle_width // 2`, defaulting to the playhead, then immediately forward the
event to `mouseMoveEvent`. -/
def mousePressEvent (s : Slider) (fineTune : Bool) (ex : ℚ) : Slider :=
  let pos_x : ℤ := value_to_pos s s.position
  let start_x : ℤ := value_to_pos s s.start_marker
  let end_x : ℤ := value_to_pos s s.end_marker
  let h2 : ℚ := ((s.handle_width / 2 : ℕ) : ℚ)
  let s' : Slider :=
    if |ex - (start_x : ℚ)| < h2 then { s with dragging := some Drag.start }
    else if |ex - (end_x : ℚ)| < h2 then { s with dragging := some Drag.end' }
    else if |ex - (pos_x : ℚ)| < h2 then { s with dragging := some Drag.position }
    else { s with dragging := some Drag.position }
  mouseMoveEvent s' fineTune ex

/-! ## `MainWindow`: player, cache list, trim export, thumbnails -/

/-- The result of running an external process via `subprocess.run(...,
check=True)`: success (exit code 0) or a `CalledProcessError` carrying the
captured standard-error text. -/
inductive ProcResult
  | success
  | failure (err : String)
  deriving DecidableEq

/-- State of the Qt media player visible to the embedded code.  `duration` is
what `QMediaPlayer.duration()` reports: `0` when no media is loaded; after
`setSource` of a real file it stays `0` until the asynchronous
`durationChanged` event delivers the real value. -/
structure Player where
  duration : ℤ
  position : ℤ
  playing : Bool
  source : Option String
  deriving DecidableEq

/-- An entry of the cache `QListWidget`: displayed text (the basename) and the
full path stored in its `UserRole` data. -/
structure CacheItem where
  text : String
  path : String
  deriving DecidableEq

/-- `os.path.basename`: the part of the path after the last `/`. -/
def basenameS (p : String) : String :=
  ⟨(p.data.reverse.takeWhile (fun c => c ≠ '/')).reverse⟩

/-- Qt string comparison used by `findItems(text, Qt.MatchFixedString)`:
`Qt.MatchFixedString` without `Qt.MatchCaseSensitive` compares
case-insensitively. -/
def eqFold (a b : String) : Bool :=
  a.data.map Char.toLower == b.data.map Char.toLower

/-- `MainWindow.add_to_cache_list` (src/main.py:870-883): key the entry by the
basename of the path; if `findItems(base_name, Qt.MatchFixedString)` already
finds an item with that text the call does nothing, otherwise a new item is
appended (icon bookkeeping omitted). -/
def add_to_cache_list (l : List CacheItem) (file_path : String) : List CacheItem :=
  let base_name := basenameS file_path
  if l.any (fun it => eqFold it.text base_name) then l
  else l ++ [{ text := base_name, path := file_path }]

/-- Split a file name into Python `pathlib`'s `(stem, suffix)` at the last
dot (names without a dot have an empty suffix). -/
def stemSuffix (name : String) : String × String :=
  let n := name.data
  let afterDot := (n.reverse.takeWhile (fun c => c ≠ '.')).reverse
  if afterDot.length = n.length then (name, "")
  else (⟨n.take (n.length - (afterDot.length + 1))⟩, ⟨'.' :: afterDot⟩)

/-- Python `str` of an integer. -/
def intRepr (n : ℤ) : String :=
  if n < 0 then ⟨'-' :: digitsOf n.natAbs⟩ else ⟨digitsOf n.natAbs⟩

/-- `os.path.join` for the absolute cache dir and a relative file name. -/
def joinPath (d f : String) : String := d ++ "/" ++ f

/-- State of `MainWindow` relevant to the trim pipeline (src/main.py:269 ff). -/
structure Win where
  ffmpeg_path : Option String
  current_media_path : Option String
  cache_dir : String
  start_time_ms : ℤ
  end_time_ms : ℤ
  cache_list : List CacheItem
  player : Player
  slider : Slider
  time_edit_start : List Char
  time_edit_end : List Char

/-- `MainWindow.reset_trim_times` (src/main.py:773-779): read the player's
current duration and reset markers, stored times and the two text fields. -/
def reset_trim_times (w : Win) : Win :=
  let duration := w.player.duration
  { w with
    start_time_ms := 0
    end_time_ms := duration
    slider := setEndMarker (setStartMarker w.slider 0) duration
    time_edit_start := format_time 0
    time_edit_end := format_time duration }

/-- `MainWindow.clear_player_state` (src/main.py:706-714): stop playback and
clear the source (after which the player reports duration 0), drop the current
media path, then `reset_trim_times` (labels and button enabling omitted). -/
def clear_player_state (w : Win) : Win :=
  reset_trim_times
    { w with
      player := { duration := 0, position := 0, playing := false, source := none }
      current_media_path := none }

/-- `MainWindow.play_media` (src/main.py:717-719): toggle play/pause. -/
def play_media (w : Win) : Win :=
  if w.player.playing then { w with player := { w.player with playing := false } }
  else { w with player := { w.player with playing := true } }

/-- `MainWindow.load_media` (src/main.py:696-704): clear the previous state,
attach the new source (whose duration is not yet known — `duration` stays `0`
until the asynchronous `durationChanged` event) and start playback.  Note that
`load_media` does not call `reset_trim_times` again after setting the new
source. -/
def load_media (w : Win) (file_path : String) : Win :=
  let w1 := clear_player_state w
  let w2 := { w1 with
    current_media_path := some file_path
    player := { w1.player with source := some file_path } }
  play_media w2

/-- `MainWindow.duration_changed` (src/main.py:735-739), together with the Qt
side of the event: the player's `duration()` now reports the new value `d`;
the handler widens the slider range and calls `reset_trim_times`. -/
def duration_changed (w : Win) (d : ℤ) : Win :=
  let w0 := { w with player := { w.player with duration := d } }
  let d2 := if d > 0 then d else 0
  reset_trim_times { w0 with slider := setRange w0.slider 0 d2 }

/-- Outcome of a `MainWindow.trim_media` call as observed by the caller. -/
inductive TrimOutcome
  | noMedia
  | validationError
  | trimSuccess
  | ffmpegError (err : String)
  deriving DecidableEq

/-- Result of `trim_media`: the new window state, the observed outcome, and
whether the external transcoder process was invoked. -/
structure TrimResult where
  win : Win
  outcome : TrimOutcome
  invoked : Bool

/-- `MainWindow.trim_media` (src/main.py:846-868): bail out if no media is
loaded; reject `start ≥ end` with a warning dialog before doing anything
else; otherwise pause, build the deterministic output name
`{stem}_trimmed_{start}_{end}{suffix}` in the cache dir and run ffmpeg
(`proc` is the outcome of that external run).  On success the output path is
registered via `add_to_cache_list`; on failure an error dialog carrying the
process's stderr is shown and nothing is registered. -/
def trim_media (w : Win) (proc : ProcResult) : TrimResult :=
  match w.current_media_path with
  | none => ⟨w, TrimOutcome.noMedia, false⟩
  | some input_path =>
    if w.start_time_ms ≥ w.end_time_ms then
      ⟨w, TrimOutcome.validationError, false⟩
    else
      let w1 := { w with player := { w.player with playing := false } }
      let sp := stemSuffix (basenameS input_path)
      let output_filename := sp.1 ++ "_trimmed_" ++ intRepr w.start_time_ms ++
        "_" ++ intRepr w.end_time_ms ++ sp.2
      let output_path := joinPath w.cache_dir output_filename
      match proc with
      | ProcResult.success =>
        ⟨{ w1 with cache_list := add_to_cache_list w1.cache_list output_path },
          TrimOutcome.trimSuccess, true⟩
      | ProcResult.failure err => ⟨w1, TrimOutcome.ffmpegError err, true⟩

/-- Result of one `ThumbnailGenerator.run` (src/main.py:40-56): the filesystem
afterwards, whether the external ffmpeg process was invoked, and the path
delivered through the `thumbnailReady` signal (`none` when the failure was
swallowed and the placeholder icon kept). -/
structure ThumbRun where
  fs : List String
  invoked : Bool
  delivered : Option String
  deriving DecidableEq

set_option linter.unusedVariables false in
/-- `ThumbnailGenerator.run` (src/main.py:40-56): if the thumbnail file does
not yet exist, invoke ffmpeg (`check=True`, so a nonzero exit raises and the
exception handler swallows the failure without emitting); afterwards, if the
file exists, emit it.  A successful ffmpeg run writes the output file.
`media_path` only feeds the ffmpeg command line, so the model does not
consume it. -/
def thumbnail_run (fs : List String) (media_path thumb_path : String)
    (proc : ProcResult) : ThumbRun :=
  if thumb_path ∈ fs then
    { fs := fs, invoked := false, delivered := some thumb_path }
  else
    match proc with
    | ProcResult.success =>
      { fs := thumb_path :: fs, invoked := true, delivered := some thumb_path }
    | ProcResult.failure _ => { fs := fs, invoked := true, delivered := none }

/-! ## Concrete states used by the evaluation theorems -/

/-- Slider state: range `[0,100]`, widget 116px wide (track 100px), markers at
5 and 6, an end-marker drag in progress. -/
def dragSlider : Slider :=
  { min_val := 0, max_val := 100, position := 0, start_marker := 5,
    end_marker := 6, dragging := some Drag.end', handle_width := 16,
    snap_threshold_px := 10, width := 116 }

/-- Slider state: range `[0,100]`, widget 116px wide, markers at 50 and 55
(handle pixels 58 and 63), idle. -/
def pressSlider : Slider :=
  { min_val := 0, max_val := 100, position := 0, start_marker := 50,
    end_marker := 55, dragging := none, handle_width := 16,
    snap_threshold_px := 10, width := 116 }

/-- Slider state: range `[0,5]` squeezed onto a 3px track (widget 19px wide,
16px handle), idle. -/
def narrowSlider : Slider :=
  { min_val := 0, max_val := 5, position := 0, start_marker := 0,
    end_marker := 5, dragging := none, handle_width := 16,
    snap_threshold_px := 10, width := 19 }

/-- Window state with a loaded one-minute clip and an inverted trim range
(start 5000ms, end 2000ms). -/
def invalidTrimWin : Win :=
  { ffmpeg_path := some "/usr/bin/ffmpeg"
    current_media_path := some "/media/clip.mp4"
    cache_dir := "/cache"
    start_time_ms := 5000
    end_time_ms := 2000
    cache_list := []
    player := { duration := 60000, position := 0, playing := true,
                source := some "/media/clip.mp4" }
    slider := pressSlider
    time_edit_start := format_time 0
    time_edit_end := format_time 60000 }

/-- Window state with a loaded one-minute clip and a valid trim range
(start 1000ms, end 2000ms). -/
def validTrimWin : Win :=
  { invalidTrimWin with start_time_ms := 1000, end_time_ms := 2000 }

/-! ## Time codec: helper lemmas -/

theorem ne_colon_of_isDigit {c : Char} (h : c.isDigit = true) : c ≠ ':' := by
  rintro rfl; exact absurd h (by decide)

/-- Characterization of the tail parser: it succeeds exactly on lists of the
shape `: d d . d d d …`, and then computes the documented value. -/
theorem parseRest_eq_some_iff (m v : ℕ) (l : List Char) :
    parseRest m l = some v ↔
      ∃ s1 s2 x1 x2 x3 t, l = ':' :: s1 :: s2 :: '.' :: x1 :: x2 :: x3 :: t ∧
        s1.isDigit = true ∧ s2.isDigit = true ∧ x1.isDigit = true ∧
        x2.isDigit = true ∧ x3.isDigit = true ∧
        v = (m * 60 + (10 * dv s1 + dv s2)) * 1000 +
          (100 * dv x1 + 10 * dv x2 + dv x3) := by
  constructor
  · intro h
    rcases l with _ | ⟨c0, _ | ⟨c1, _ | ⟨c2, _ | ⟨c3, _ | ⟨c4, _ | ⟨c5, _ | ⟨c6, t⟩⟩⟩⟩⟩⟩⟩ <;>
      simp only [parseRest] at h
    · exact Option.noConfusion h
    · exact Option.noConfusion h
    · exact Option.noConfusion h
    · exact Option.noConfusion h
    · exact Option.noConfusion h
    · exact Option.noConfusion h
    · exact Option.noConfusion h
    rw [ite_eq_iff] at h
    rcases h with ⟨⟨rfl, h1, h2, rfl, h4, h5, h6⟩, hv⟩ | ⟨-, hv⟩
    · exact ⟨c1, c2, c4, c5, c6, t, rfl, h1, h2, h4, h5, h6, (Option.some.inj hv).symm⟩
    · cases hv
  · rintro ⟨s1, s2, x1, x2, x3, t, rfl, h1, h2, h4, h5, h6, rfl⟩
    simp [parseRest, h1, h2, h4, h5, h6]

/-- parseRest never succeeds when the head character is not a colon. -/
theorem parseRest_head_ne_colon {m : ℕ} {c : Char} {l : List Char} (hc : c ≠ ':') :
    parseRest m (c :: l) = none := by
  rcases l with _ | ⟨c1, _ | ⟨c2, _ | ⟨c3, _ | ⟨c4, _ | ⟨c5, _ | ⟨c6, t⟩⟩⟩⟩⟩⟩ <;>
    simp only [parseRest]
  rw [if_neg]
  rintro ⟨rfl, -⟩
  exact hc rfl

/-- Full characterization of `parse_time`: it succeeds exactly on strings
whose first characters match `\d{1,2}:\d{2}\.\d{3}` (followed by an arbitrary
remainder `t`), and the value is `(minutes * 60 + seconds) * 1000 + millis`
computed from that matched head. -/
theorem parse_time_eq_some_iff (l : List Char) (v : ℕ) :
    parse_time l = some v ↔
      (∃ m1 s1 s2 x1 x2 x3 t,
        l = m1 :: ':' :: s1 :: s2 :: '.' :: x1 :: x2 :: x3 :: t ∧
        m1.isDigit = true ∧ s1.isDigit = true ∧ s2.isDigit = true ∧
        x1.isDigit = true ∧ x2.isDigit = true ∧ x3.isDigit = true ∧
        v = (dv m1 * 60 + (10 * dv s1 + dv s2)) * 1000 +
          (100 * dv x1 + 10 * dv x2 + dv x3)) ∨
      (∃ m1 m2 s1 s2 x1 x2 x3 t,
        l = m1 :: m2 :: ':' :: s1 :: s2 :: '.' :: x1 :: x2 :: x3 :: t ∧
        m1.isDigit = true ∧ m2.isDigit = true ∧ s1.isDigit = true ∧
        s2.isDigit = true ∧ x1.isDigit = true ∧ x2.isDigit = true ∧
        x3.isDigit = true ∧
        v = ((10 * dv m1 + dv m2) * 60 + (10 * dv s1 + dv s2)) * 1000 +
          (100 * dv x1 + 10 * dv x2 + dv x3)) := by
  rcases l with _ | ⟨c1, rest⟩
  · simp [parse_time]
  rcases rest with _ | ⟨c2, rest2⟩
  · constructor
    · intro h
      exfalso
      by_cases h1 : c1.isDigit = true <;> simp [parse_time, h1] at h
    · rintro (⟨m1, s1, s2, x1, x2, x3, t, heq, -⟩ | ⟨m1, m2, s1, s2, x1, x2, x3, t, heq, -⟩) <;>
        · injection heq with e1 heq2; cases heq2
  by_cases h1 : c1.isDigit = true
  · by_cases h2 : c2.isDigit = true
    · -- greedy two-digit minutes; the one-digit fallback can never fire
      have hfb : parseRest (dv c1) (c2 :: rest2) = none :=
        parseRest_head_ne_colon (ne_colon_of_isDigit h2)
      have hmain : parse_time (c1 :: c2 :: rest2) =
          parseRest (10 * dv c1 + dv c2) rest2 := by
        simp only [parse_time, h1, if_true]
        cases hpr : parseRest (10 * dv c1 + dv c2) rest2 <;> simp [h2, hpr, hfb]
      rw [hmain, parseRest_eq_some_iff]
      constructor
      · rintro ⟨s1, s2, x1, x2, x3, t, rfl, hs1, hs2, hx1, hx2, hx3, rfl⟩
        exact Or.inr ⟨c1, c2, s1, s2, x1, x2, x3, t, rfl, h1, h2, hs1, hs2, hx1, hx2, hx3, rfl⟩
      · rintro (⟨m1, s1, s2, x1, x2, x3, t, heq, hm1, hs1, hs2, hx1, hx2, hx3, rfl⟩ |
               ⟨m1, m2, s1, s2, x1, x2, x3, t, heq, hm1, hm2, hs1, hs2, hx1, hx2, hx3, rfl⟩)
        · -- one-digit shape forces c2 = ':', impossible for a digit
          injection heq with e1 heq2
          injection heq2 with e2 heq3
          exact absurd e2 (ne_colon_of_isDigit h2)
        · injection heq with e1 heq2
          injection heq2 with e2 heq3
          subst e1; subst e2; subst heq3
          exact ⟨s1, s2, x1, x2, x3, t, rfl, hs1, hs2, hx1, hx2, hx3, rfl⟩
    · -- second character is not a digit: one-digit minutes path
      have hmain : parse_time (c1 :: c2 :: rest2) = parseRest (dv c1) (c2 :: rest2) := by
        simp [parse_time, h1, h2]
      rw [hmain, parseRest_eq_some_iff]
      constructor
      · rintro ⟨s1, s2, x1, x2, x3, t, heq, hs1, hs2, hx1, hx2, hx3, rfl⟩
        exact Or.inl ⟨c1, s1, s2, x1, x2, x3, t, by rw [heq], h1, hs1, hs2, hx1, hx2, hx3, rfl⟩
      · rintro (⟨m1, s1, s2, x1, x2, x3, t, heq, hm1, hs1, hs2, hx1, hx2, hx3, rfl⟩ |
               ⟨m1, m2, s1, s2, x1, x2, x3, t, heq, hm1, hm2, hs1, hs2, hx1, hx2, hx3, rfl⟩)
        · injection heq with e1 heq2
          subst e1
          exact ⟨s1, s2, x1, x2, x3, t, heq2, hs1, hs2, hx1, hx2, hx3, rfl⟩
        · injection heq with e1 heq2
          injection heq2 with e2 heq3
          subst e2
          exact absurd hm2 (by simpa using h2)
  · -- first character not a digit: reject
    constructor
    · intro h
      exfalso
      revert h
      simp [parse_time, h1]
    · rintro (⟨m1, s1, s2, x1, x2, x3, t, heq, hm1, -⟩ |
             ⟨m1, m2, s1, s2, x1, x2, x3, t, heq, hm1, -⟩) <;>
      · injection heq with e1 heq2
        subst e1
        exact absurd hm1 (by simpa using h1)

/-- Acceptance direction of `parse_time` in the two-digit-minutes shape. -/
theorem parse_time_cons_digits (m1 m2 s1 s2 x1 x2 x3 : Char) (t : List Char)
    (h1 : m1.isDigit = true) (h2 : m2.isDigit = true) (h3 : s1.isDigit = true)
    (h4 : s2.isDigit = true) (h5 : x1.isDigit = true) (h6 : x2.isDigit = true)
    (h7 : x3.isDigit = true) :
    parse_time (m1 :: m2 :: ':' :: s1 :: s2 :: '.' :: x1 :: x2 :: x3 :: t) =
      some (((10 * dv m1 + dv m2) * 60 + (10 * dv s1 + dv s2)) * 1000 +
        (100 * dv x1 + 10 * dv x2 + dv x3)) :=
  (parse_time_eq_some_iff _ _).mpr
    (Or.inr ⟨m1, m2, s1, s2, x1, x2, x3, t, rfl, h1, h2, h3, h4, h5, h6, h7, rfl⟩)

theorem padZero_two_eq : ∀ n < 100,
    padZero 2 n = [Nat.digitChar (n / 10), Nat.digitChar (n % 10)] := by decide

set_option maxHeartbeats 2000000 in
set_option maxRecDepth 10000 in
theorem padZero_three_eq : ∀ n < 1000,
    padZero 3 n = [Nat.digitChar (n / 100), Nat.digitChar (n / 10 % 10),
      Nat.digitChar (n % 10)] := by decide

theorem digitChar_isDigit : ∀ d < 10, (Nat.digitChar d).isDigit = true := by decide

theorem dv_digitChar : ∀ d < 10, dv (Nat.digitChar d) = d := by decide

/-- Digit-level expansion of `format_time` for inputs whose minutes field fits
in two digits. -/
theorem format_time_eq_digits (n : ℕ) (h : n / 60000 < 100) :
    format_time (n : ℤ) =
      Nat.digitChar (n / 1000 / 60 / 10) :: Nat.digitChar (n / 1000 / 60 % 10) ::
      ':' :: Nat.digitChar (n / 1000 % 60 / 10) :: Nat.digitChar (n / 1000 % 60 % 10) ::
      '.' :: Nat.digitChar (n % 1000 / 100) :: Nat.digitChar (n % 1000 / 10 % 10) ::
      Nat.digitChar (n % 1000 % 10) :: [] := by
  have hm : n / 1000 / 60 < 100 := by omega
  have hr : n % 1000 < 1000 := by omega
  show padZero 2 ((n : ℤ).toNat / 1000 / 60) ++ ':' ::
      (padZero 2 ((n : ℤ).toNat / 1000 % 60) ++ '.' :: padZero 3 ((n : ℤ).toNat % 1000)) = _
  rw [Int.toNat_natCast]
  rw [padZero_two_eq _ hm, padZero_two_eq _ (by omega : n / 1000 % 60 < 100),
    padZero_three_eq _ hr]
  simp

/-! ## Claims C4 and C5: the time codec -/

/-- C4, counterexample: the claim says a string with a matching head followed
by extra characters is rejected, but `parse_time` (built on `re.match`, which
does not anchor at the end) accepts `"01:01.234x"` and returns 61234 even
though the string does not match the pattern entirely. -/
theorem C4_trailing_characters_accepted :
    parse_time ("01:01.234x".toList) = some 61234 ∧
    fullPatternMatch ("01:01.234x".toList) = false := by
  constructor
  · decide
  · decide

/-- C4, amended: `parse_time` returns a value iff the string BEGINS with a
match of `\d{1,2}:\d{2}\.\d{3}` — trailing characters are ignored rather than
rejected — and on success the result equals
`(minutes * 60 + seconds) * 1000 + millis` computed from that matched head. -/
theorem C4_parse_time_accepts_exactly_head_matches (l : List Char) (v : ℕ) :
    parse_time l = some v ↔
      (∃ m1 s1 s2 x1 x2 x3 t,
        l = m1 :: ':' :: s1 :: s2 :: '.' :: x1 :: x2 :: x3 :: t ∧
        m1.isDigit = true ∧ s1.isDigit = true ∧ s2.isDigit = true ∧
        x1.isDigit = true ∧ x2.isDigit = true ∧ x3.isDigit = true ∧
        v = (dv m1 * 60 + (10 * dv s1 + dv s2)) * 1000 +
          (100 * dv x1 + 10 * dv x2 + dv x3)) ∨
      (∃ m1 m2 s1 s2 x1 x2 x3 t,
        l = m1 :: m2 :: ':' :: s1 :: s2 :: '.' :: x1 :: x2 :: x3 :: t ∧
        m1.isDigit = true ∧ m2.isDigit = true ∧ s1.isDigit = true ∧
        s2.isDigit = true ∧ x1.isDigit = true ∧ x2.isDigit = true ∧
        x3.isDigit = true ∧
        v = ((10 * dv m1 + dv m2) * 60 + (10 * dv s1 + dv s2)) * 1000 +
          (100 * dv x1 + 10 * dv x2 + dv x3)) :=
  parse_time_eq_some_iff l v

/-- C4, witness: the amended characterization evaluated on the one-digit
minutes string `"5:06.007"`. -/
theorem C4_parse_time_accepts_exactly_head_matches_witness :
    parse_time ("5:06.007".toList) = some 306007 :=
  (C4_parse_time_accepts_exactly_head_matches ("5:06.007".toList) 306007).mpr
    (Or.inl ⟨'5', '0', '6', '0', '0', '7', [], by decide, by decide, by decide,
      by decide, by decide, by decide, by decide, by decide⟩)

/-- C5: for every millisecond count `ms ≥ 0` whose minutes component is below
100, `parse_time (format_time ms) = some ms`. -/
theorem C5_format_parse_roundtrip (n : ℕ) (h : n / 60000 < 100) :
    parse_time (format_time (n : ℤ)) = some n := by
  rw [format_time_eq_digits n h]
  rw [parse_time_cons_digits _ _ _ _ _ _ _ _
    (digitChar_isDigit _ (by omega)) (digitChar_isDigit _ (by omega))
    (digitChar_isDigit _ (by omega)) (digitChar_isDigit _ (by omega))
    (digitChar_isDigit _ (by omega)) (digitChar_isDigit _ (by omega))
    (digitChar_isDigit _ (by omega))]
  rw [dv_digitChar _ (by omega), dv_digitChar _ (by omega),
    dv_digitChar _ (by omega), dv_digitChar _ (by omega),
    dv_digitChar _ (by omega), dv_digitChar _ (by omega),
    dv_digitChar _ (by omega)]
  simp only [Option.some.injEq]
  omega

/-- C5, witness: the round trip evaluated at 61234 ms (`"01:01.234"`). -/
theorem C5_format_parse_roundtrip_witness :
    61234 / 60000 < 100 ∧ parse_time (format_time (61234 : ℤ)) = some 61234 :=
  ⟨by decide, C5_format_parse_roundtrip 61234 (by decide)⟩

/-! ## Slider: helper lemmas -/

theorem floor_le_truncQ (q : ℚ) : ⌊q⌋ ≤ truncQ q := by
  unfold truncQ; split
  · exact le_refl _
  · exact Int.floor_le_ceil q

theorem truncQ_le_ceil (q : ℚ) : truncQ q ≤ ⌈q⌉ := by
  unfold truncQ; split
  · exact Int.floor_le_ceil q
  · exact le_refl _

theorem truncQ_nonneg_eq_floor {q : ℚ} (h : 0 ≤ q) : truncQ q = ⌊q⌋ := if_pos h

theorem setStartMarker_dragging (s : Slider) (v : ℤ) :
    (setStartMarker s v).dragging = s.dragging := by
  unfold setStartMarker; split <;> rfl

theorem setEndMarker_dragging (s : Slider) (v : ℤ) :
    (setEndMarker s v).dragging = s.dragging := by
  unfold setEndMarker; split <;> rfl

/-- Drag updates never change which handle is being dragged. -/
theorem mouseMoveEvent_dragging (s : Slider) (fineTune : Bool) (ex : ℚ) :
    (mouseMoveEvent s fineTune ex).dragging = s.dragging := by
  unfold mouseMoveEvent
  rcases hd : s.dragging with _ | d
  · exact hd
  · cases d
    · exact hd
    · dsimp only
      split <;> (try split) <;>
        first
          | (rw [setStartMarker_dragging]; exact hd)
          | exact hd
    · dsimp only
      split <;> (try split) <;>
        first
          | (rw [setEndMarker_dragging]; exact hd)
          | exact hd

/-! ## Claim C1: the `start < end` invariant under drag updates -/

/-- C1: evaluation of the code at the failing input.  From the valid state
`start = 5 < 6 = end` (range `[0,100]`, 100px track), a single fine-tune
end-marker drag at pixel `x = 11` (value 3) computes
`new_val = 6 + (3 - 6) * 0.25 = 5.25`, passes the strict guard
`5.25 > 5`, and then emits `int(5.25) = 5`, so the handler stores
`end = 5 = start`: the truncation applied after the guard breaks the
invariant the guard was meant to protect. -/
theorem C1_fine_tune_drag_collapses_markers :
    dragSlider.start_marker < dragSlider.end_marker ∧
    (mouseMoveEvent dragSlider true 11).start_marker = 5 ∧
    (mouseMoveEvent dragSlider true 11).end_marker = 5 := by
  refine ⟨by decide, ?_, ?_⟩ <;>
    norm_num [mouseMoveEvent, pos_to_value, dragSlider, truncQ, setEndMarker]

/-! ## Claim C6: handle selection on pointer-down -/

/-- C6, counterexample: with markers at 50 and 55 (handle pixels 58 and 63)
and a press at `x = 65`, the end handle is strictly nearer (distance 2 < 7)
and within `handle_width / 2 = 8`, yet the code selects the start handle
because it tests the start handle first. -/
theorem C6_nearest_handle_not_selected :
    (mousePressEvent pressSlider false 65).dragging = some Drag.start ∧
    |(65 : ℚ) - ((value_to_pos pressSlider pressSlider.end_marker : ℤ) : ℚ)| <
      |(65 : ℚ) - ((value_to_pos pressSlider pressSlider.start_marker : ℤ) : ℚ)| ∧
    |(65 : ℚ) - ((value_to_pos pressSlider pressSlider.end_marker : ℤ) : ℚ)| <
      ((pressSlider.handle_width / 2 : ℕ) : ℚ) := by
  refine ⟨?_, ?_, ?_⟩ <;>
    norm_num [mousePressEvent, mouseMoveEvent, value_to_pos, pos_to_value,
      pressSlider, truncQ, setStartMarker, setEndMarker]

/-- C6, amended: pointer-down selects a handle by the fixed priority
start-handle, then end-handle, then playhead (not by distance): the start
handle whenever it is within `handle_width / 2` of the press, otherwise the
end handle whenever that one is within range, and the playhead in every other
case (in particular as the default when no handle is in range).  Exactly one
drag always becomes active. -/
theorem C6_press_selects_by_priority (s : Slider) (fineTune : Bool) (ex : ℚ) :
    ((mousePressEvent s fineTune ex).dragging).isSome = true ∧
    ((mousePressEvent s fineTune ex).dragging = some Drag.start ↔
      |ex - ((value_to_pos s s.start_marker : ℤ) : ℚ)| < ((s.handle_width / 2 : ℕ) : ℚ)) ∧
    ((mousePressEvent s fineTune ex).dragging = some Drag.end' ↔
      (¬ |ex - ((value_to_pos s s.start_marker : ℤ) : ℚ)| < ((s.handle_width / 2 : ℕ) : ℚ) ∧
        |ex - ((value_to_pos s s.end_marker : ℤ) : ℚ)| < ((s.handle_width / 2 : ℕ) : ℚ))) ∧
    ((mousePressEvent s fineTune ex).dragging = some Drag.position ↔
      (¬ |ex - ((value_to_pos s s.start_marker : ℤ) : ℚ)| < ((s.handle_width / 2 : ℕ) : ℚ) ∧
        ¬ |ex - ((value_to_pos s s.end_marker : ℤ) : ℚ)| < ((s.handle_width / 2 : ℕ) : ℚ))) := by
  unfold mousePressEvent
  rw [mouseMoveEvent_dragging]
  split_ifs with hs he hp <;> simp [*]

/-- C6, witness: the priority selection evaluated at a concrete press. -/
theorem C6_press_selects_by_priority_witness :
    ((mousePressEvent pressSlider false 30).dragging).isSome = true :=
  (C6_press_selects_by_priority pressSlider false 30).1

/-! ## Claim C7: the pixel round-trip error bound -/

/-- C7, counterexample: range `[0,5]` on a 3px track (width 19, handle 16):
the value 3 maps to pixel `⌊3/5·3⌋ + 8 = 9` and back to
`int((9-8)/3·5) = int(5/3) = 1`, an error of 2, which exceeds one
pixel-unit's worth of resolution `(max-min)/track = 5/3`. -/
theorem C7_roundtrip_error_exceeds_resolution :
    pos_to_value narrowSlider ((value_to_pos narrowSlider 3 : ℤ) : ℚ) = 1 ∧
    ¬ (|(3 : ℚ) - ((pos_to_value narrowSlider ((value_to_pos narrowSlider 3 : ℤ) : ℚ) : ℤ) : ℚ)| ≤
        ((narrowSlider.max_val : ℚ) - (narrowSlider.min_val : ℚ)) /
          ((narrowSlider.width : ℚ) - (narrowSlider.handle_width : ℚ))) := by
  have h : pos_to_value narrowSlider ((value_to_pos narrowSlider 3 : ℤ) : ℚ) = 1 := by
    norm_num [pos_to_value, value_to_pos, narrowSlider, truncQ]
  refine ⟨h, ?_⟩
  rw [h]
  norm_num [narrowSlider]

/-- C7, amended: for a nondegenerate range and a track wider than the handle,
the round trip `pos_to_value (value_to_pos v)` never exceeds `v`, and its
error is strictly below one pixel-unit's worth of resolution
`(max-min)/track` PLUS one (the extra unit coming from the integer
truncation of values; the error can exceed `(max-min)/track` itself, as the
counterexample shows). -/
theorem C7_roundtrip_error_bound (s : Slider) (v : ℤ)
    (hrange : s.min_val < s.max_val)
    (hwide : (s.handle_width : ℤ) < (s.width : ℤ))
    (hv1 : s.min_val ≤ v) (hv2 : v ≤ s.max_val) :
    0 ≤ v - pos_to_value s ((value_to_pos s v : ℤ) : ℚ) ∧
      ((v : ℚ) - ((pos_to_value s ((value_to_pos s v : ℤ) : ℚ) : ℤ) : ℚ)) <
        ((s.max_val : ℚ) - (s.min_val : ℚ)) /
          ((s.width : ℚ) - (s.handle_width : ℚ)) + 1 := by
  set r : ℤ := pos_to_value s ((value_to_pos s v : ℤ) : ℚ) with hrdef
  set mn : ℤ := s.min_val with hmn
  set mx : ℤ := s.max_val with hmx
  have hLne : mx - mn ≠ 0 := by omega
  set T : ℤ := (s.width : ℤ) - (s.handle_width : ℤ) with hT
  have hTpos : 0 < T := by omega
  have hTq : (0 : ℚ) < (T : ℚ) := by exact_mod_cast hTpos
  have hLq : (0 : ℚ) < ((mx : ℚ) - (mn : ℚ)) := by
    have h0 : (0 : ℤ) < mx - mn := by omega
    exact_mod_cast h0
  set L : ℚ := (mx : ℚ) - (mn : ℚ) with hL
  -- the pixel the value maps to
  have hclamp : max mn (min v mx) = v := by omega
  set q1 : ℚ := ((v : ℚ) - (mn : ℚ)) / L * (T : ℚ) with hq1
  have hq1nonneg : 0 ≤ q1 := by
    apply mul_nonneg
    · apply div_nonneg
      · have h0 : (mn : ℚ) ≤ (v : ℚ) := by exact_mod_cast hv1
        linarith
      · linarith
    · linarith
  set p : ℤ := ⌊q1⌋ with hp
  have hpx : value_to_pos s v = p + ((s.handle_width / 2 : ℕ) : ℤ) := by
    show (if mx - mn = 0 then _ else _) = _
    rw [if_neg hLne, hclamp, truncQ_nonneg_eq_floor hq1nonneg]
  have hp0 : 0 ≤ p := Int.le_floor.mpr (by exact_mod_cast hq1nonneg)
  have hple : (p : ℚ) ≤ q1 := Int.floor_le q1
  have hplt : q1 < (p : ℚ) + 1 := Int.lt_floor_add_one q1
  -- the value the pixel maps back to
  set val : ℚ := (mn : ℚ) + (p : ℚ) / (T : ℚ) * L with hval
  have hr : r = max mn (min mx (truncQ val)) := by
    rw [hrdef]
    show (if T ≤ 0 then _ else _) = _
    rw [if_neg (by omega : ¬ T ≤ 0), hpx]
    have hexpr : ((((p + ((s.handle_width / 2 : ℕ) : ℤ)) : ℤ) : ℚ) -
        (((s.handle_width / 2 : ℕ) : ℤ) : ℚ)) / (T : ℚ) * L = (p : ℚ) / (T : ℚ) * L := by
      push_cast
      ring
    rw [hexpr]
  -- bounds on val
  have hvq : ((mn : ℚ)) ≤ (v : ℚ) := by exact_mod_cast hv1
  have hA : (p : ℚ) / (T : ℚ) * L ≤ (v : ℚ) - (mn : ℚ) := by
    rw [div_mul_eq_mul_div, div_le_iff₀ hTq]
    have h1 : (p : ℚ) ≤ ((v : ℚ) - (mn : ℚ)) * (T : ℚ) / L := by
      calc (p : ℚ) ≤ q1 := hple
        _ = ((v : ℚ) - (mn : ℚ)) * (T : ℚ) / L := by rw [hq1, div_mul_eq_mul_div]
    calc (p : ℚ) * L ≤ ((v : ℚ) - (mn : ℚ)) * (T : ℚ) / L * L := by
          exact mul_le_mul_of_nonneg_right h1 (le_of_lt hLq)
      _ = ((v : ℚ) - (mn : ℚ)) * (T : ℚ) := by field_simp
  have hB : (v : ℚ) - (mn : ℚ) < (p : ℚ) / (T : ℚ) * L + L / (T : ℚ) := by
    have h1 : ((v : ℚ) - (mn : ℚ)) * (T : ℚ) / L < (p : ℚ) + 1 := by
      rw [← div_mul_eq_mul_div, ← hq1]
      exact hplt
    have h2 : ((v : ℚ) - (mn : ℚ)) * (T : ℚ) < ((p : ℚ) + 1) * L := by
      rw [div_lt_iff₀ hLq] at h1
      exact h1
    have h3 : (v : ℚ) - (mn : ℚ) < ((p : ℚ) + 1) * L / (T : ℚ) := by
      rw [lt_div_iff₀ hTq]
      exact h2
    calc (v : ℚ) - (mn : ℚ) < ((p : ℚ) + 1) * L / (T : ℚ) := h3
      _ = (p : ℚ) / (T : ℚ) * L + L / (T : ℚ) := by ring
  have hval_le : val ≤ (v : ℚ) := by
    rw [hval]
    linarith
  have hval_gt : (v : ℚ) - L / (T : ℚ) < val := by
    rw [hval]
    linarith
  have hval_ge_mn : (mn : ℚ) ≤ val := by
    rw [hval]
    have h0 : 0 ≤ (p : ℚ) / (T : ℚ) * L := by
      apply mul_nonneg
      · apply div_nonneg
        · exact_mod_cast hp0
        · linarith
      · linarith
    linarith
  set r0 : ℤ := truncQ val with hr0
  have hr0_le_v : r0 ≤ v := by
    calc r0 ≤ ⌈val⌉ := truncQ_le_ceil val
      _ ≤ v := Int.ceil_le.mpr hval_le
  have hr0_ge_mn : mn ≤ r0 := by
    calc mn ≤ ⌊val⌋ := Int.le_floor.mpr hval_ge_mn
      _ ≤ r0 := floor_le_truncQ val
  have hr_eq : r = r0 := by
    rw [hr]
    have h1 : min mx r0 = r0 := min_eq_right (by omega)
    rw [h1]
    exact max_eq_right hr0_ge_mn
  clear_value r mn mx T L q1 p val r0
  have hr0_gt : ((v : ℚ) - L / (T : ℚ)) - 1 < (r0 : ℚ) := by
    have h1 : val - 1 < (⌊val⌋ : ℚ) := Int.sub_one_lt_floor val
    have h2 : (⌊val⌋ : ℚ) ≤ (r0 : ℚ) := by
      rw [hr0]
      exact_mod_cast floor_le_truncQ val
    have h3 : val - 1 < (r0 : ℚ) := lt_of_lt_of_le h1 h2
    linarith [hval_gt, h3]
  constructor
  · omega
  · rw [hr_eq]
    have hcast : ((s.width : ℚ) - (s.handle_width : ℚ)) = (T : ℚ) := by
      rw [hT]; push_cast; ring
    rw [hcast]
    linarith [hr0_gt]

/-- C7, witness: the amended bound evaluated on the 100px-track slider at
value 50, where the round trip is exact. -/
theorem C7_roundtrip_error_bound_witness :
    pressSlider.min_val < pressSlider.max_val ∧
    (pressSlider.handle_width : ℤ) < (pressSlider.width : ℤ) ∧
    pressSlider.min_val ≤ 50 ∧ (50 : ℤ) ≤ pressSlider.max_val ∧
    (0 ≤ 50 - pos_to_value pressSlider ((value_to_pos pressSlider 50 : ℤ) : ℚ) ∧
      (((50 : ℤ) : ℚ) - ((pos_to_value pressSlider ((value_to_pos pressSlider 50 : ℤ) : ℚ) : ℤ) : ℚ)) <
        ((pressSlider.max_val : ℚ) - (pressSlider.min_val : ℚ)) /
          ((pressSlider.width : ℚ) - (pressSlider.handle_width : ℚ)) + 1) :=
  ⟨by decide, by decide, by decide, by decide,
    C7_roundtrip_error_bound pressSlider 50 (by decide) (by decide) (by decide) (by decide)⟩

/-! ## Claim C2: trim validation -/

/-- C2: when a media asset is loaded, a trim request with `start ≥ end` is
answered with the validation warning, invokes no external process and leaves
the cache list untouched; and conversely the transcoder is invoked only when
`start < end` and a media asset is loaded. -/
theorem C2_trim_media_validation (w : Win) (proc : ProcResult) :
    (w.current_media_path.isSome = true → w.start_time_ms ≥ w.end_time_ms →
      (trim_media w proc).outcome = TrimOutcome.validationError ∧
      (trim_media w proc).invoked = false ∧
      (trim_media w proc).win.cache_list = w.cache_list) ∧
    ((trim_media w proc).invoked = true →
      w.start_time_ms < w.end_time_ms ∧ w.current_media_path.isSome = true) := by
  unfold trim_media
  rcases hm : w.current_media_path with _ | input_path
  · simp
  · by_cases hse : w.start_time_ms ≥ w.end_time_ms
    · simp [hse]
    · cases proc <;> simp [hse] <;> omega

/-- C2, witness: the validation branch evaluated on a loaded clip with
`start = 5000 ≥ 2000 = end`. -/
theorem C2_trim_media_validation_witness :
    invalidTrimWin.current_media_path.isSome = true ∧
    invalidTrimWin.start_time_ms ≥ invalidTrimWin.end_time_ms ∧
    ((trim_media invalidTrimWin ProcResult.success).outcome =
        TrimOutcome.validationError ∧
      (trim_media invalidTrimWin ProcResult.success).invoked = false ∧
      (trim_media invalidTrimWin ProcResult.success).win.cache_list =
        invalidTrimWin.cache_list) :=
  ⟨by decide, by decide,
    (C2_trim_media_validation invalidTrimWin ProcResult.success).1
      (by decide) (by decide)⟩

/-! ## Claim C3: trim export failure containment -/

/-- C3: whenever the external transcoder was actually invoked and exited
nonzero, the caller is shown the ffmpeg error carrying the process's
standard-error text, and the cache list is exactly what it was before the
call — the output path is not registered. -/
theorem C3_trim_media_process_failure (w : Win) (err : String)
    (h : (trim_media w (ProcResult.failure err)).invoked = true) :
    (trim_media w (ProcResult.failure err)).outcome = TrimOutcome.ffmpegError err ∧
    (trim_media w (ProcResult.failure err)).win.cache_list = w.cache_list := by
  unfold trim_media at h ⊢
  rcases hm : w.current_media_path with _ | input_path
  · rw [hm] at h
    simp at h
  · rw [hm] at h
    by_cases hse : w.start_time_ms ≥ w.end_time_ms
    · simp [hse] at h
    · simp [hse]

/-- C3, witness: a failing export on a loaded clip with the valid range
`[1000, 2000]` and stderr text `"boom"`. -/
theorem C3_trim_media_process_failure_witness :
    (trim_media validTrimWin (ProcResult.failure "boom")).invoked = true ∧
    ((trim_media validTrimWin (ProcResult.failure "boom")).outcome =
        TrimOutcome.ffmpegError "boom" ∧
      (trim_media validTrimWin (ProcResult.failure "boom")).win.cache_list =
        validTrimWin.cache_list) :=
  ⟨by decide, C3_trim_media_process_failure validTrimWin "boom" (by decide)⟩

/-! ## Claim C8: thumbnail fast path -/

/-- C8: when the thumbnail file already exists on disk, the job invokes no
external process and delivers the existing file through the callback; in
particular a second job for the same output path still finds the file and
also invokes nothing, so the process is never run at all. -/
theorem C8_thumbnail_existing_file_no_process (fs : List String)
    (media thumb : String) (p1 p2 : ProcResult) (h : thumb ∈ fs) :
    (thumbnail_run fs media thumb p1).invoked = false ∧
    (thumbnail_run fs media thumb p1).delivered = some thumb ∧
    (thumbnail_run (thumbnail_run fs media thumb p1).fs media thumb p2).invoked = false := by
  simp [thumbnail_run, h]

/-- C8, witness: two thumbnail jobs for an already-present
`/cache/thumbnails/clip.jpg`. -/
theorem C8_thumbnail_existing_file_no_process_witness :
    "/cache/thumbnails/clip.jpg" ∈ ["/cache/thumbnails/clip.jpg"] ∧
    ((thumbnail_run ["/cache/thumbnails/clip.jpg"] "/media/clip.mp4"
        "/cache/thumbnails/clip.jpg" ProcResult.success).invoked = false ∧
      (thumbnail_run ["/cache/thumbnails/clip.jpg"] "/media/clip.mp4"
        "/cache/thumbnails/clip.jpg" ProcResult.success).delivered =
          some "/cache/thumbnails/clip.jpg" ∧
      (thumbnail_run (thumbnail_run ["/cache/thumbnails/clip.jpg"] "/media/clip.mp4"
          "/cache/thumbnails/clip.jpg" ProcResult.success).fs "/media/clip.mp4"
        "/cache/thumbnails/clip.jpg" ProcResult.success).invoked = false) :=
  ⟨by decide,
    C8_thumbnail_existing_file_no_process ["/cache/thumbnails/clip.jpg"]
      "/media/clip.mp4" "/cache/thumbnails/clip.jpg"
      ProcResult.success ProcResult.success (by decide)⟩

/-! ## Claim C9: cache-list deduplication -/

/-- Adding an entry preserves pairwise distinctness of the (case-folded)
display names. -/
theorem add_to_cache_list_pairwise (l : List CacheItem) (p : String)
    (h : List.Pairwise (fun a b => eqFold a.text b.text = false) l) :
    List.Pairwise (fun a b => eqFold a.text b.text = false)
      (add_to_cache_list l p) := by
  by_cases hany : (l.any fun it => eqFold it.text (basenameS p)) = true
  · unfold add_to_cache_list
    rw [if_pos hany]
    exact h
  · unfold add_to_cache_list
    rw [if_neg hany]
    rw [Bool.not_eq_true, List.any_eq_false] at hany
    rw [List.pairwise_append]
    refine ⟨h, List.pairwise_singleton _ _, ?_⟩
    intro a ha b hb
    simp only [List.mem_singleton] at hb
    subst hb
    have h2 := hany a ha
    simpa using h2

/-- Any sequence of adds starting from the empty list keeps the display-name
keys pairwise distinct. -/
theorem foldl_add_to_cache_list_pairwise (ps : List String) :
    ∀ l, List.Pairwise (fun a b => eqFold a.text b.text = false) l →
      List.Pairwise (fun a b => eqFold a.text b.text = false)
        (ps.foldl add_to_cache_list l) := by
  induction ps with
  | nil => intro l h; exact h
  | cons p ps ih =>
    intro l h
    exact ih _ (add_to_cache_list_pairwise l p h)

/-- C9, counterexample: Qt's `Qt.MatchFixedString` lookup is case-insensitive,
so after adding `/a/x.mp4` an add of `/b/X.mp4` — whose basename `X.mp4` is a
fresh key, distinct from `x.mp4` — does NOT insert a new entry, contradicting
the claim that an add with a fresh basename inserts. -/
theorem C9_fresh_basename_not_inserted :
    add_to_cache_list [{ text := "x.mp4", path := "/a/x.mp4" }] "/b/X.mp4" =
      [{ text := "x.mp4", path := "/a/x.mp4" }] ∧
    basenameS "/b/X.mp4" ≠ "x.mp4" := by
  constructor
  · decide
  · decide

/-- C9, amended: the deduplication key is the basename compared
case-insensitively (Qt's `MatchFixedString` semantics): an add whose basename
case-insensitively equals an existing entry's name is a no-op that keeps the
first entry, an add whose basename matches no existing entry (even ignoring
case) appends a new entry with that basename and path, and any sequence of
adds from the empty list keeps at most one entry per case-folded basename. -/
theorem C9_add_to_cache_list_dedup (l : List CacheItem) (p : String)
    (ps : List String) :
    (l.any (fun it => eqFold it.text (basenameS p)) = true →
      add_to_cache_list l p = l) ∧
    (l.any (fun it => eqFold it.text (basenameS p)) = false →
      add_to_cache_list l p = l ++ [{ text := basenameS p, path := p }]) ∧
    List.Pairwise (fun a b => eqFold a.text b.text = false)
      (ps.foldl add_to_cache_list []) := by
  refine ⟨?_, ?_, foldl_add_to_cache_list_pairwise ps [] List.Pairwise.nil⟩
  · intro h
    unfold add_to_cache_list
    rw [if_pos h]
  · intro h
    unfold add_to_cache_list
    rw [if_neg (by simp [h])]

/-- C9, witness: a duplicate add is a no-op, a fresh add appends, and a
two-element add sequence has distinct keys. -/
theorem C9_add_to_cache_list_dedup_witness :
    add_to_cache_list [{ text := "x.mp4", path := "/a/x.mp4" }] "/b/x.mp4" =
      [{ text := "x.mp4", path := "/a/x.mp4" }] ∧
    add_to_cache_list [] "/a/x.mp4" = [{ text := "x.mp4", path := "/a/x.mp4" }] ∧
    List.Pairwise (fun a b => eqFold a.text b.text = false)
      ((["/a/x.mp4", "/b/y.mp4"]).foldl add_to_cache_list []) := by
  refine ⟨?_, ?_, ?_⟩
  · exact (C9_add_to_cache_list_dedup
      [{ text := "x.mp4", path := "/a/x.mp4" }] "/b/x.mp4" []).1 (by decide)
  · simpa using (C9_add_to_cache_list_dedup [] "/a/x.mp4" []).2.1 (by decide)
  · exact (C9_add_to_cache_list_dedup [] "" ["/a/x.mp4", "/b/y.mp4"]).2.2

/-! ## Claim C10: the trim window right after a load -/

/-- C10: immediately after `load_media`, and until the asynchronous
`durationChanged` event arrives, both trim times are 0: `load_media` resets
via `clear_player_state` while the player (its source just cleared) reports
duration 0, and does not reset again after attaching the new source, so the
trim range is degenerate (`start = end = 0`) during this window. -/
theorem C10_load_media_degenerate_trim_window (w : Win) (p : String) :
    (load_media w p).start_time_ms = 0 ∧ (load_media w p).end_time_ms = 0 := by
  constructor <;> rfl

end Nexus
